import Mathlib

/-!
Verification of the Kumo Cloud integration (custom_components/kumo_cloud).

The Python source is shallowly embedded as pure Lean functions: each stateful
method becomes a function from an explicit state (plus an environment that
supplies network outcomes, the clock and the jitter draw) to a new state and
an observable result.  Timestamps and delays are modelled as rationals
(datetime arithmetic in the source is exact at the granularity the claims
use), HTTP statuses as naturals, and opaque JSON payloads as the fields the
verified operations actually touch.
-/

namespace KumoCloud

/-! ### Constants, from const.py and the coordinator initializer -/

def TOKEN_REFRESH_INTERVAL : ℚ := 1200
def TOKEN_EXPIRY_MARGIN : ℚ := 300
def RETRY_ATTEMPTS : ℕ := 3
def RETRY_BACKOFF_BASE : ℚ := 1
def RETRY_BACKOFF_MAX : ℚ := 16
def RATE_LIMIT_BACKOFF_BASE : ℚ := 60
def RATE_LIMIT_BACKOFF_MAX : ℚ := 300

/-- `self._max_auth_failures = 3` in KumoCloudDataUpdateCoordinator.__init__. -/
def MAX_AUTH_FAILURES : ℕ := 3

/-! ### API client state (api.py, class KumoCloudAPI) -/

/-- The token-related fields of the KumoCloudAPI object. -/
structure APIState where
  username : Option String
  password : Option String
  access_token : Option String
  refresh_token : Option String
  token_expires_at : Option ℚ
deriving DecidableEq

/-- Python truthiness of `self.access_token` (None and the empty string are
falsy). -/
def tokenPresent : Option String → Bool
  | none => false
  | some s => !s.isEmpty

/-- What `_ensure_token_valid` does before any network call: raise an auth
error, call `refresh_access_token`, or return with the token still valid.
The double-checked-locking re-check in the source repeats the identical
comparison, so the sequential model collapses the two checks into one. -/
inductive EnsureOutcome
  | authError
  | refresh
  | ok
deriving DecidableEq

/-- api.py lines 306-327, `_ensure_token_valid`.  Note that the stored
credentials (username/password) are never consulted on the no-token path. -/
def ensure_token_valid (st : APIState) (now : ℚ) : EnsureOutcome :=
  if tokenPresent st.access_token = false then .authError
  else
    match st.token_expires_at with
    | some expiresAt =>
        if expiresAt ≤ now + TOKEN_EXPIRY_MARGIN then .refresh else .ok
    | none => .ok

/-- api.py lines 161-163: on successful login,
`token_expires_at = datetime.now() + timedelta(seconds=TOKEN_REFRESH_INTERVAL)`. -/
def login_token_expiry (now : ℚ) : ℚ := now + TOKEN_REFRESH_INTERVAL

/-- api.py lines 329-342, `_calculate_backoff`.  `r` is the value returned by
`random.random()`, which lies in `[0, 1)`. -/
def calculate_backoff (attempt : ℕ) (base maxDelay : ℚ) (jitter : Bool) (r : ℚ) : ℚ :=
  let delay := min (base * 2 ^ attempt) maxDelay
  if jitter then delay * (3/4 + r * (1/2)) else delay

/-- api.py lines 344-378, `_handle_response_status`, restricted to its state
effect and the raised rate-limit error.  Input: current value of
`_consecutive_rate_limits`, the response status, the parsed Retry-After
header (None when absent or unparsable), and the jitter draw.  Output: the
new counter value, and `some finalRetryAfter` exactly when
KumoCloudRateLimitError is raised. -/
def handle_response_status (counter : ℕ) (status : ℕ)
    (retryAfterHeader : Option ℚ) (r : ℚ) : ℕ × Option ℚ :=
  if status = 429 then
    let counter1 := counter + 1
    let backoff := calculate_backoff (counter1 - 1)
      RATE_LIMIT_BACKOFF_BASE RATE_LIMIT_BACKOFF_MAX true r
    (counter1, some (max (retryAfterHeader.getD 0) backoff))
  else if status < 400 then (0, none)
  else (counter, none)

/-! ### The authenticated request loop (api.py, `_request`) -/

/-- What one HTTP attempt inside `_request` produces: a response with some
status, a timeout (asyncio.TimeoutError), or a network fault
(aiohttp.ClientError). -/
inductive AttemptOutcome
  | status (code : ℕ)
  | timeout
  | netError
deriving DecidableEq

/-- How `_request` classifies the end of one attempt. -/
inductive ReqResult
  | success
  | rateLimitError
  | authError
  | connectionError
deriving DecidableEq

/-- Per-attempt classification in `_request` (api.py lines 399-443):
`_handle_response_status` raises KumoCloudRateLimitError on 429;
`raise_for_status` turns statuses >= 400 into ClientResponseError, of which
401 becomes KumoCloudAuthError and the rest KumoCloudConnectionError;
timeouts and aiohttp client errors become KumoCloudConnectionError;
a status below 400 returns the body. -/
def attemptResult : AttemptOutcome → ReqResult
  | .status code =>
      if code = 429 then .rateLimitError
      else if code = 401 then .authError
      else if code < 400 then .success
      else .connectionError
  | .timeout => .connectionError
  | .netError => .connectionError

/-- The retry loop of `_request` (api.py lines 399-456).  `env i` is the
outcome of attempt number `i` (0-based), `fuel` the remaining attempts,
`used` the attempts already made.  Only connection errors are retried;
rate-limit and auth errors, and success, end the loop at once.  When the
budget is exhausted the recorded `last_error` (a connection error) is
raised.  Returns the result together with the number of attempts issued. -/
def requestLoop (env : ℕ → AttemptOutcome) : ℕ → ℕ → ReqResult × ℕ
  | 0, used => (.connectionError, used)
  | fuel + 1, used =>
      match attemptResult (env used) with
      | .connectionError => requestLoop env fuel (used + 1)
      | r => (r, used + 1)

/-- api.py lines 380-456, `_request`: first `_ensure_token_valid` (an auth
error there propagates before any attempt; a due refresh consults the
refresh subsystem, whose failure `refreshResult` propagates), then the
attempt loop with `RETRY_ATTEMPTS` total attempts. -/
def api_request (st : APIState) (now : ℚ) (refreshResult : Option ReqResult)
    (env : ℕ → AttemptOutcome) : ReqResult × ℕ :=
  match ensure_token_valid st now with
  | .authError => (.authError, 0)
  | .refresh =>
      match refreshResult with
      | some e => (e, 0)
      | none => requestLoop env RETRY_ATTEMPTS 0
  | .ok => requestLoop env RETRY_ATTEMPTS 0

/-! ### Coordinator data model (__init__.py, KumoCloudDataUpdateCoordinator)

Zones, device details and device profiles are JSON payloads; we model the
fields the verified operations read or write.  A zone's `adapter` sub-record
is `none` both when the key is absent and when its value is falsy (the source
guards with `if "adapter" in zone and zone["adapter"]`).  The eight adapter
fields below are exactly those patched by `async_refresh_device`; the profile
payload is never inspected, so it is an opaque integer. -/

structure Adapter where
  deviceSerial : String
  roomTemp : Option ℤ
  operationMode : Option ℤ
  power : Option ℤ
  fanSpeed : Option ℤ
  airDirection : Option ℤ
  spCool : Option ℤ
  spHeat : Option ℤ
  humidity : Option ℤ
deriving DecidableEq

structure Zone where
  id : ℕ
  adapter : Option Adapter
deriving DecidableEq

/-- The keys of a device-detail payload that `async_refresh_device` copies
into the zone adapter via `.get` (absent keys yield `none`). -/
structure DeviceDetail where
  roomTemp : Option ℤ
  operationMode : Option ℤ
  power : Option ℤ
  fanSpeed : Option ℤ
  airDirection : Option ℤ
  spCool : Option ℤ
  spHeat : Option ℤ
  humidity : Option ℤ
deriving DecidableEq

abbrev ProfilePayload := ℤ

/-- How an API call observed by the coordinator can end, mirroring the
exception taxonomy of api.py.  `rateLimit` carries the `retry_after` hint. -/
inductive FetchErr
  | rateLimit (retryAfter : Option ℚ)
  | authErr
  | connErr
  | otherErr
deriving DecidableEq

/-- The dict `{"zones": ..., "devices": ..., "device_profiles": ...}`
returned by a successful `_async_update_data` and stored as
`coordinator.data`.  Python dicts preserve insertion order, so the
serial-keyed maps are association lists in insertion order. -/
structure CacheTriple where
  zones : List Zone
  devices : List (String × DeviceDetail)
  device_profiles : List (String × ProfilePayload)
deriving DecidableEq

/-- The mutable fields of KumoCloudDataUpdateCoordinator touched by the
verified operations.  `data` is the coordinator's published cache (set by
the framework from the value `_async_update_data` returns, kept unchanged
when it raises UpdateFailed). -/
structure CoordState where
  zones : List Zone
  devices : List (String × DeviceDetail)
  device_profiles : List (String × ProfilePayload)
  data : Option CacheTriple
  rate_limited : Bool
  rate_limit_until : Option ℚ
  auth_failures : ℕ
deriving DecidableEq

/-! ### Rate-limit window helpers (__init__.py lines 134-172) -/

/-- Property `is_rate_limited`: true iff the window flag is set, an `until`
timestamp exists, and `now` is still before it. -/
def is_rate_limited (st : CoordState) (now : ℚ) : Bool :=
  match st.rate_limited, st.rate_limit_until with
  | true, some u => decide (now < u)
  | _, _ => false

/-- `_clear_rate_limit`. -/
def clear_rate_limit (st : CoordState) : CoordState :=
  { st with rate_limited := false, rate_limit_until := none }

/-- `_set_rate_limit(retry_after)`: window until `now + retry_after`. -/
def set_rate_limit (st : CoordState) (retryAfter : ℚ) (now : ℚ) : CoordState :=
  { st with rate_limited := true, rate_limit_until := some (now + retryAfter) }

/-- `_check_and_clear_rate_limit`: returns the possibly-cleared state and
whether the coordinator is still limited.  Note the source does NOT clear
when the flag is unset or `until` is None; it clears only on expiry. -/
def check_and_clear_rate_limit (st : CoordState) (now : ℚ) : CoordState × Bool :=
  match st.rate_limited, st.rate_limit_until with
  | true, some u => if u ≤ now then (clear_rate_limit st, false) else (st, true)
  | _, _ => (st, false)

/-- Property `rate_limit_remaining_seconds`: `max(0, int(remaining))`; the
truncation `int()` agrees with the floor because the value is positive
whenever `is_rate_limited` holds. -/
def rate_limit_remaining_seconds (st : CoordState) (now : ℚ) : ℤ :=
  if is_rate_limited st now then
    match st.rate_limit_until with
    | some u => max 0 ⌊u - now⌋
    | none => 0
  else 0

/-! ### The poll cycle (`_async_update_data`, __init__.py lines 174-271) -/

/-- Network fetches issued during a poll cycle, in issue order. -/
inductive FetchEvent
  | zonesFetch
  | detailFetch (serial : String)
  | profileFetch (serial : String)
deriving DecidableEq

/-- Environment of one poll cycle: the clock at entry and the outcome each
fetch would have if issued. -/
structure PollEnv where
  now : ℚ
  zonesResult : Except FetchErr (List Zone)
  detailResult : String → Except FetchErr DeviceDetail
  profileResult : String → Except FetchErr ProfilePayload

/-- The device-fetch loop of `_async_update_data` (lines 194-214): walk the
zones, skip zones without a truthy adapter, skip serials already seen, and
for each new serial fetch detail then profile sequentially, staging results
in local accumulators.  The second component is the trace of fetches issued,
including those of a failing iteration (a failing detail fetch means the
profile fetch is never issued). -/
def devLoop (detail : String → Except FetchErr DeviceDetail)
    (profile : String → Except FetchErr ProfilePayload) :
    List Zone → List String → List (String × DeviceDetail) →
      List (String × ProfilePayload) →
      Except FetchErr (List (String × DeviceDetail) × List (String × ProfilePayload))
        × List FetchEvent
  | [], _, devs, profs => (.ok (devs, profs), [])
  | z :: rest, seen, devs, profs =>
    match z.adapter with
    | none => devLoop detail profile rest seen devs profs
    | some a =>
      if a.deviceSerial ∈ seen then devLoop detail profile rest seen devs profs
      else
        match detail a.deviceSerial with
        | .error e => (.error e, [.detailFetch a.deviceSerial])
        | .ok d =>
          match profile a.deviceSerial with
          | .error e =>
              (.error e, [.detailFetch a.deviceSerial, .profileFetch a.deviceSerial])
          | .ok p =>
            let next := devLoop detail profile rest (seen ++ [a.deviceSerial])
              (devs ++ [(a.deviceSerial, d)]) (profs ++ [(a.deviceSerial, p)])
            (next.1, .detailFetch a.deviceSerial :: .profileFetch a.deviceSerial :: next.2)

/-- The UpdateFailed variants `_async_update_data` can raise, tagged with the
data each message interpolates. -/
inductive FailKind
  | rateLimitedWait (remaining : ℤ)
  | rateLimitedRetry (retryAfter : ℚ)
  | authFailed
  | authFailedReauth
  | connFailed
  | unexpectedFailed
deriving DecidableEq

/-- Result of one poll cycle: final coordinator state, the returned cache or
the UpdateFailed raised, whether `async_start_reauth` was invoked, and the
trace of fetches issued. -/
structure PollStep where
  state : CoordState
  outcome : Except FailKind CacheTriple
  reauth : Bool
  trace : List FetchEvent

/-- The except-clauses of `_async_update_data` (lines 231-271), applied to
the state as of the raise. -/
def poll_handle_error (st : CoordState) (e : FetchErr) (now : ℚ) :
    CoordState × FailKind × Bool :=
  match e with
  | .rateLimit ra =>
      let t := ra.getD 60
      (set_rate_limit st t now, .rateLimitedRetry t, false)
  | .authErr =>
      let st1 := { st with auth_failures := st.auth_failures + 1 }
      if MAX_AUTH_FAILURES ≤ st1.auth_failures then (st1, .authFailedReauth, true)
      else (st1, .authFailed, false)
  | .connErr => (st, .connFailed, false)
  | .otherErr => (st, .unexpectedFailed, false)

/-- The try-body of `_async_update_data` (lines 190-229), entered only when
not rate limited: fetch zones, run the device loop, and on full success
clear the window, reset the auth-failure counter and swap the staged results
into the cache. -/
def poll_body (st0 : CoordState) (env : PollEnv) : PollStep :=
  match env.zonesResult with
  | .error e =>
      let r := poll_handle_error st0 e env.now
      ⟨r.1, .error r.2.1, r.2.2, [.zonesFetch]⟩
  | .ok zones =>
      match devLoop env.detailResult env.profileResult zones [] [] [] with
      | (.error e, tr) =>
          let r := poll_handle_error st0 e env.now
          ⟨r.1, .error r.2.1, r.2.2, .zonesFetch :: tr⟩
      | (.ok (devs, profs), tr) =>
          let st1 := { clear_rate_limit st0 with
                       auth_failures := 0,
                       zones := zones, devices := devs, device_profiles := profs,
                       data := some ⟨zones, devs, profs⟩ }
          ⟨st1, .ok ⟨zones, devs, profs⟩, false, .zonesFetch :: tr⟩

/-- `_async_update_data` (lines 174-271): check the rate-limit window first;
while it is still open, issue no fetch and return the cached data (or raise
UpdateFailed with the remaining wait when no cache exists); otherwise run
the fetch body. -/
def async_update_data (st : CoordState) (env : PollEnv) : PollStep :=
  let c := check_and_clear_rate_limit st env.now
  if c.2 then
    match c.1.data with
    | some d => ⟨c.1, .ok d, false, []⟩
    | none =>
        ⟨c.1, .error (.rateLimitedWait (rate_limit_remaining_seconds c.1 env.now)),
          false, []⟩
  else poll_body c.1 env

/-! ### Targeted refresh (`async_refresh_device`, __init__.py lines 273-330) -/

/-- Python dict assignment `self.devices[serial] = detail`: replace in place
if the key exists, append otherwise. -/
def setEntry {α : Type} : List (String × α) → String → α → List (String × α)
  | [], s, v => [(s, v)]
  | (k, w) :: rest, s, v =>
      if k = s then (k, v) :: rest else (k, w) :: setEntry rest s v

/-- `zone["adapter"].update({... eight keys from device_detail.get ...})`
(lines 296-307). -/
def patchAdapter (a : Adapter) (d : DeviceDetail) : Adapter :=
  { a with roomTemp := d.roomTemp, operationMode := d.operationMode,
           power := d.power, fanSpeed := d.fanSpeed,
           airDirection := d.airDirection, spCool := d.spCool,
           spHeat := d.spHeat, humidity := d.humidity }

/-- The zone-patch loop (lines 292-308): patch the FIRST zone whose truthy
adapter carries the serial, then `break`; later matching zones are left
untouched. -/
def patchZones : List Zone → String → DeviceDetail → List Zone
  | [], _, _ => []
  | z :: rest, s, d =>
    match z.adapter with
    | some a =>
        if a.deviceSerial = s then { z with adapter := some (patchAdapter a d) } :: rest
        else z :: patchZones rest s d
    | none => z :: patchZones rest s d

/-- `async_refresh_device(serial)` (lines 273-330).  Returns the new state
and whether the detail fetch was issued.  The function never propagates an
exception: a rate-limit error only opens the window, and any other error is
logged and swallowed. -/
def async_refresh_device (st : CoordState) (serial : String)
    (detailResult : Except FetchErr DeviceDetail) (now : ℚ) : CoordState × Bool :=
  if is_rate_limited st now then (st, false)
  else
    match detailResult with
    | .ok d =>
        let devices1 := setEntry st.devices serial d
        let zones1 := patchZones st.zones serial d
        ({ st with devices := devices1, zones := zones1,
                   data := some ⟨zones1, devices1, st.device_profiles⟩ }, true)
    | .error (.rateLimit ra) => (set_rate_limit st (ra.getD 60) now, true)
    | .error _ => (st, true)

/-! ### Command dispatch (KumoCloudDevice.send_command, lines 390-434) -/

/-- Environment for one `send_command` call: the write's outcome, and (when
it succeeds) the environment of the follow-up targeted refresh. -/
structure CommandEnv where
  serial : String
  sendResult : Except FetchErr Unit
  refreshDetail : Except FetchErr DeviceDetail
  nowSend : ℚ
  nowRefresh : ℚ

/-- Per-operation outcome classification, used to state the auth-failure
policy.  `fullSuccess` is a poll cycle that ran its fetches to completion or
a command whose write succeeded; `skipped` is the rate-limit-window fast
path of a poll (which returns cached data or raises without fetching). -/
inductive OpOutcome
  | fullSuccess
  | skipped
  | rateLimited
  | authFailed
  | connFailed
  | otherFailed
deriving DecidableEq

/-- `KumoCloudDevice.send_command`: on success reset `_auth_failures`, then
(after COMMAND_DELAY) run the targeted refresh best-effort; on
KumoCloudRateLimitError open the window and re-raise; on KumoCloudAuthError
bump the counter, trigger reauth at the threshold, and re-raise; other
errors re-raise untouched.  Second component: whether `async_start_reauth`
was invoked. -/
def send_command_step (st : CoordState) (env : CommandEnv) :
    CoordState × Bool × OpOutcome :=
  match env.sendResult with
  | .ok _ =>
      let st1 := { st with auth_failures := 0 }
      ((async_refresh_device st1 env.serial env.refreshDetail env.nowRefresh).1,
        false, .fullSuccess)
  | .error (.rateLimit ra) =>
      (set_rate_limit st (ra.getD 60) env.nowSend, false, .rateLimited)
  | .error .authErr =>
      let st1 := { st with auth_failures := st.auth_failures + 1 }
      if MAX_AUTH_FAILURES ≤ st1.auth_failures then (st1, true, .authFailed)
      else (st1, false, .authFailed)
  | .error .connErr => (st, false, .connFailed)
  | .error .otherErr => (st, false, .otherFailed)

/-- Classify a poll step for the auth-failure policy. -/
def classifyPoll (ps : PollStep) : OpOutcome :=
  match ps.outcome with
  | .ok _ => if ps.trace.isEmpty then .skipped else .fullSuccess
  | .error (.rateLimitedWait _) => .skipped
  | .error (.rateLimitedRetry _) => .rateLimited
  | .error .authFailed => .authFailed
  | .error .authFailedReauth => .authFailed
  | .error .connFailed => .connFailed
  | .error .unexpectedFailed => .otherFailed

/-- One operation against the coordinator: a scheduled/on-demand poll cycle
or a user command. -/
inductive OpEvent
  | poll (env : PollEnv)
  | command (env : CommandEnv)

/-- Result of applying one operation. -/
structure OpStep where
  state : CoordState
  reauth : Bool
  outcome : OpOutcome

/-- Apply one operation to the coordinator state. -/
def applyOp (st : CoordState) : OpEvent → OpStep
  | .poll env =>
      let ps := async_update_data st env
      ⟨ps.state, ps.reauth, classifyPoll ps⟩
  | .command env =>
      let r := send_command_step st env
      ⟨r.1, r.2.1, r.2.2⟩

/-! ### Characterizations used in theorem statements -/

/-- The device serials referenced by the zones' truthy adapters, with
multiplicity, in zone order. -/
def refSerials (zones : List Zone) : List String :=
  zones.filterMap fun z => z.adapter.map Adapter.deviceSerial

/-- First occurrence of each referenced serial not already in `seen`, in
zone order — the order in which the device loop issues its fetches. -/
def uniqueSerials : List Zone → List String → List String
  | [], _ => []
  | z :: rest, seen =>
    match z.adapter with
    | none => uniqueSerials rest seen
    | some a =>
        if a.deviceSerial ∈ seen then uniqueSerials rest seen
        else a.deviceSerial :: uniqueSerials rest (seen ++ [a.deviceSerial])

/-! ### Claim C1 — token expiry and the refresh margin -/

/-- Reduction of `_ensure_token_valid` when a token is present and an expiry
is stored: the outcome is decided by the margin comparison alone. -/
lemma ensure_token_valid_some (st : APIState) (now expiresAt : ℚ)
    (h : tokenPresent st.access_token = true)
    (he : st.token_expires_at = some expiresAt) :
    ensure_token_valid st now =
      if expiresAt ≤ now + TOKEN_EXPIRY_MARGIN then .refresh else .ok := by
  simp [ensure_token_valid, h, he]

/-- Claim C1, counterexample to the claim as stated: the claim asserts that
with a token obtained at time 0 (expiry 1200), a request at time 950 does
NOT trigger a refresh; but `_ensure_token_valid` compares
`now + 300 >= expiry`, and `950 + 300 = 1250 >= 1200`, so the refresh IS
triggered. -/
theorem C1_counterexample :
    ensure_token_valid
      ⟨some "u", some "p", some "tok", some "rt", some (login_token_expiry 0)⟩ 950
      = .refresh := by
  rw [ensure_token_valid_some
      ⟨some "u", some "p", some "tok", some "rt", some (login_token_expiry 0)⟩
      950 (login_token_expiry 0) rfl rfl,
    if_pos (by norm_num [login_token_expiry, TOKEN_REFRESH_INTERVAL, TOKEN_EXPIRY_MARGIN])]

/-- Claim C1 (amended): login sets the token expiry to now + 1200s, and
`_ensure_token_valid` triggers a refresh exactly when now + 300s
(EXPIRY_MARGIN) has reached the stored expiry, i.e. from t0 + 900s on; in
particular, for a token obtained at t0, requests at t0 + 950s and t0 + 910s
BOTH trigger a refresh first, while a request at t0 + 850s does not. -/
theorem C1_token_refresh_margin (t0 t : ℚ) (user pw tok rtok : Option String)
    (htok : tokenPresent tok = true) :
    login_token_expiry t0 = t0 + 1200 ∧
    (ensure_token_valid ⟨user, pw, tok, rtok, some (login_token_expiry t0)⟩ t
        = .refresh ↔ t0 + 900 ≤ t) ∧
    ensure_token_valid ⟨user, pw, tok, rtok, some (login_token_expiry t0)⟩ (t0 + 950)
        = .refresh ∧
    ensure_token_valid ⟨user, pw, tok, rtok, some (login_token_expiry t0)⟩ (t0 + 910)
        = .refresh ∧
    ensure_token_valid ⟨user, pw, tok, rtok, some (login_token_expiry t0)⟩ (t0 + 850)
        = .ok := by
  have hexp : login_token_expiry t0 = t0 + 1200 := by
    norm_num [login_token_expiry, TOKEN_REFRESH_INTERVAL]
  have hred : ∀ t' : ℚ,
      ensure_token_valid ⟨user, pw, tok, rtok, some (login_token_expiry t0)⟩ t'
        = if t0 + 1200 ≤ t' + 300 then .refresh else .ok := by
    intro t'
    rw [ensure_token_valid_some _ t' (login_token_expiry t0) htok rfl, hexp]
    norm_num [TOKEN_EXPIRY_MARGIN]
  refine ⟨hexp, ?_, ?_, ?_, ?_⟩
  · rw [hred t]
    constructor
    · intro hr
      by_contra hlt
      push_neg at hlt
      rw [if_neg (by linarith)] at hr
      exact EnsureOutcome.noConfusion hr
    · intro hge
      rw [if_pos (by linarith)]
  · rw [hred (t0 + 950), if_pos (by linarith)]
  · rw [hred (t0 + 910), if_pos (by linarith)]
  · rw [hred (t0 + 850), if_neg (by linarith)]

/-- Witness for C1's amended theorem at t0 = 0, t = 1000 with credentials and
a nonempty token stored. -/
theorem C1_witness :
    ensure_token_valid
      ⟨some "u", some "p", some "tok", some "rt", some (login_token_expiry 0)⟩
      ((0 : ℚ) + 910) = .refresh :=
  (C1_token_refresh_margin 0 1000 (some "u") (some "p") (some "tok") (some "rt")
    rfl).2.2.2.1

/-! ### Claim C3 — the consecutive-429 counter -/

/-- Claim C3, counterexample to the claim as stated: the claim asserts the
consecutive-429 counter resets to 0 on ANY non-429 response, but
`_handle_response_status` resets it only when `status < 400`; a 500 response
leaves a counter of 2 unchanged. -/
theorem C3_counterexample : (handle_response_status 2 500 none 0).1 ≠ 0 := by decide

/-- Claim C3 (amended): for every response processed by
`_handle_response_status`, the consecutive-429 counter increments by one on
each 429, resets to 0 on any response with status below 400, and is left
unchanged on any other status at or above 400. -/
theorem C3_counter_update (counter status : ℕ) (hdr : Option ℚ) (r : ℚ) :
    (handle_response_status counter 429 hdr r).1 = counter + 1 ∧
    (status ≠ 429 → status < 400 → (handle_response_status counter status hdr r).1 = 0) ∧
    (status ≠ 429 → 400 ≤ status → (handle_response_status counter status hdr r).1 = counter) := by
  refine ⟨by simp [handle_response_status], ?_, ?_⟩
  · intro h1 h2
    simp [handle_response_status, h1, h2]
  · intro h1 h2
    rw [handle_response_status, if_neg h1, if_neg (by omega)]

/-- Witness for C3's amended theorem: a 500 response with counter 2 leaves
the counter at 2. -/
theorem C3_witness : (handle_response_status 2 500 none 0).1 = 2 :=
  (C3_counter_update 2 500 none 0).2.2 (by decide) (by decide)

/-! ### Claim C4 — the backoff formula -/

/-- Claim C4: for attempt count n, base > 0, cap > 0 and jitter draw r in
[0,1), the backoff delay equals `min(base * 2^n, cap) * (0.75 + r*0.5)`; it
always lies within [0.75x, 1.25x] of the unjittered value
`min(base * 2^n, cap)`, and (for a fixed jitter draw) is monotonically
non-decreasing in n up to the configured cap. -/
theorem C4_backoff_formula (n : ℕ) (base cap r : ℚ) (hb : 0 < base) (hc : 0 < cap)
    (hr0 : 0 ≤ r) (hr1 : r < 1) :
    calculate_backoff n base cap true r
        = min (base * 2 ^ n) cap * (3/4 + r * (1/2)) ∧
    (3/4) * min (base * 2 ^ n) cap ≤ calculate_backoff n base cap true r ∧
    calculate_backoff n base cap true r ≤ (5/4) * min (base * 2 ^ n) cap ∧
    ∀ m : ℕ, n ≤ m →
      calculate_backoff n base cap true r ≤ calculate_backoff m base cap true r := by
  have hu0 : (0:ℚ) ≤ min (base * 2 ^ n) cap := le_min (by positivity) hc.le
  refine ⟨rfl, ?_, ?_, ?_⟩
  · simp only [calculate_backoff, if_pos]
    nlinarith [mul_nonneg hu0 hr0]
  · simp only [calculate_backoff, if_pos]
    nlinarith [mul_nonneg hu0 (by linarith : (0:ℚ) ≤ 1 - r)]
  · intro m hnm
    simp only [calculate_backoff, if_pos]
    have h2 : base * 2 ^ n ≤ base * 2 ^ m :=
      mul_le_mul_of_nonneg_left (pow_le_pow_right₀ (by norm_num) hnm) hb.le
    have hf : (0:ℚ) ≤ 3/4 + r * (1/2) := by linarith
    exact mul_le_mul_of_nonneg_right (min_le_min h2 le_rfl) hf

/-- Witness for C4 at n = 0, base 1, cap 16, r = 1/2. -/
theorem C4_witness :
    calculate_backoff 0 1 16 true (1/2) ≤ calculate_backoff 3 1 16 true (1/2) :=
  (C4_backoff_formula 0 1 16 (1/2) (by norm_num) (by norm_num) (by norm_num)
    (by norm_num)).2.2.2 3 (by norm_num)

/-! ### Claim C10 — missing access token fails fast -/

/-- Claim C10: if no access token is present, `_ensure_token_valid` — and
hence every authenticated request made through `_request` — immediately
raises an auth error with zero attempts issued, without consulting the
refresh subsystem, even when username/password credentials are stored. -/
theorem C10_no_token_auth_error (st : APIState) (now : ℚ)
    (h : st.access_token = none) :
    ensure_token_valid st now = .authError ∧
    ∀ refreshResult env, api_request st now refreshResult env = (.authError, 0) := by
  have h1 : ensure_token_valid st now = .authError := by
    simp [ensure_token_valid, tokenPresent, h]
  exact ⟨h1, fun refreshResult env => by simp [api_request, h1]⟩

/-- Witness for C10: a state with stored credentials and a refresh token but
no access token. -/
theorem C10_witness :
    ensure_token_valid ⟨some "u", some "p", none, some "rt", some 100⟩ 0
      = .authError :=
  (C10_no_token_auth_error ⟨some "u", some "p", none, some "rt", some 100⟩ 0 rfl).1

/-! ### Claim C6 — retry policy of the authenticated request path -/

/-- If the first `k` attempts are connection errors and attempt `k` is not,
the loop stops at attempt `k` with its classification, having issued
`k + 1` attempts. -/
lemma requestLoop_stops (env : ℕ → AttemptOutcome) :
    ∀ (k fuel used : ℕ), k < fuel →
      (∀ i, i < k → attemptResult (env (used + i)) = .connectionError) →
      attemptResult (env (used + k)) ≠ .connectionError →
      requestLoop env fuel used = (attemptResult (env (used + k)), used + k + 1)
  | 0, fuel + 1, used, _, _, hne => by
      cases hres : attemptResult (env (used + 0)) with
      | connectionError => exact absurd hres hne
      | success =>
          simp only [Nat.add_zero] at hres
          simp [requestLoop, hres]
      | rateLimitError =>
          simp only [Nat.add_zero] at hres
          simp [requestLoop, hres]
      | authError =>
          simp only [Nat.add_zero] at hres
          simp [requestLoop, hres]
  | k + 1, fuel + 1, used, hk, htrans, hne => by
      have h0 : attemptResult (env used) = .connectionError := by
        have := htrans 0 (Nat.succ_pos k)
        simpa using this
      have hrec := requestLoop_stops env k fuel (used + 1)
        (Nat.lt_of_succ_lt_succ hk)
        (fun i hi => by
          have := htrans (i + 1) (Nat.succ_lt_succ hi)
          simpa [Nat.add_assoc, Nat.add_comm 1 i] using this)
        (by
          have : used + 1 + k = used + (k + 1) := by omega
          rw [this]; exact hne)
      have hstep : requestLoop env (fuel + 1) used = requestLoop env fuel (used + 1) := by
        simp [requestLoop, h0]
      rw [hstep, hrec]
      have : used + 1 + k = used + (k + 1) := by omega
      rw [this]

/-- If every attempt in the budget is a connection error, the loop exhausts
the budget and surfaces a connection error. -/
lemma requestLoop_exhausts (env : ℕ → AttemptOutcome) :
    ∀ (fuel used : ℕ),
      (∀ i, i < fuel → attemptResult (env (used + i)) = .connectionError) →
      requestLoop env fuel used = (.connectionError, used + fuel)
  | 0, used, _ => by simp [requestLoop]
  | fuel + 1, used, hall => by
      have h0 : attemptResult (env used) = .connectionError := by
        have := hall 0 (Nat.succ_pos fuel)
        simpa using this
      have hrec := requestLoop_exhausts env fuel (used + 1)
        (fun i hi => by
          have := hall (i + 1) (Nat.succ_lt_succ hi)
          simpa [Nat.add_assoc, Nat.add_comm 1 i] using this)
      have hstep : requestLoop env (fuel + 1) used = requestLoop env fuel (used + 1) := by
        simp [requestLoop, h0]
      rw [hstep, hrec]
      have : used + 1 + fuel = used + (fuel + 1) := by omega
      rw [this]

/-- Claim C6: with a valid token, a 429 or 401 on any attempt `k` within the
budget ends `_request` immediately after that attempt (k + 1 attempts
issued, no further retry) as a rate-limit resp. auth error; timeouts,
network faults and statuses >= 400 other than 401/429 classify as
connection errors, which are retried up to RETRY_ATTEMPTS (3) total
attempts and only then surfaced as a connection error. -/
theorem C6_retry_policy (st : APIState) (now : ℚ) (rr : Option ReqResult)
    (env : ℕ → AttemptOutcome) (k : ℕ)
    (hvalid : ensure_token_valid st now = .ok)
    (hk : k < RETRY_ATTEMPTS)
    (htrans : ∀ i, i < k → attemptResult (env i) = .connectionError) :
    (env k = .status 429 → api_request st now rr env = (.rateLimitError, k + 1)) ∧
    (env k = .status 401 → api_request st now rr env = (.authError, k + 1)) ∧
    (∀ c, 400 ≤ c → c ≠ 401 → c ≠ 429 → attemptResult (.status c) = .connectionError) ∧
    attemptResult .timeout = .connectionError ∧
    attemptResult .netError = .connectionError ∧
    ((∀ i, i < RETRY_ATTEMPTS → attemptResult (env i) = .connectionError) →
      api_request st now rr env = (.connectionError, RETRY_ATTEMPTS)) := by
  have hreq : api_request st now rr env = requestLoop env RETRY_ATTEMPTS 0 := by
    simp [api_request, hvalid]
  refine ⟨?_, ?_, ?_, rfl, rfl, ?_⟩
  · intro h429
    have hstop := requestLoop_stops env k RETRY_ATTEMPTS 0 hk
      (by simpa using htrans) (by simp [h429, attemptResult])
    rw [hreq, hstop]
    simp [h429, attemptResult]
  · intro h401
    have hstop := requestLoop_stops env k RETRY_ATTEMPTS 0 hk
      (by simpa using htrans) (by simp [h401, attemptResult])
    rw [hreq, hstop]
    simp [h401, attemptResult]
  · intro c hc hc401 hc429
    simp only [attemptResult, if_neg hc429, if_neg hc401,
      if_neg (by omega : ¬ c < 400)]
  · intro hall
    have hex := requestLoop_exhausts env RETRY_ATTEMPTS 0 (by simpa using hall)
    rw [hreq, hex]
    norm_num

/-- Witness for C6: a timeout on attempt 0 followed by a 429 on attempt 1
ends the request after exactly 2 attempts with a rate-limit error. -/
theorem C6_witness :
    api_request ⟨some "u", some "p", some "tok", some "rt", some 2000⟩ 0 none
      (fun i => if i = 0 then .timeout else .status 429) = (.rateLimitError, 1 + 1) :=
  (C6_retry_policy ⟨some "u", some "p", some "tok", some "rt", some 2000⟩ 0 none
    (fun i => if i = 0 then .timeout else .status 429) 1
    (by
      rw [ensure_token_valid_some ⟨some "u", some "p", some "tok", some "rt", some 2000⟩
        0 2000 rfl rfl, if_neg (by norm_num [TOKEN_EXPIRY_MARGIN])])
    (by norm_num [RETRY_ATTEMPTS])
    (by
      intro i hi
      have h0 : i = 0 := by omega
      subst h0
      rfl)).1 rfl

/-! ### Shared coordinator lemmas -/

/-- The rate-limit check never touches the cache fields or the auth-failure
counter, whether or not it clears the window. -/
lemma check_preserves_cache (st : CoordState) (now : ℚ) :
    (check_and_clear_rate_limit st now).1.zones = st.zones ∧
    (check_and_clear_rate_limit st now).1.devices = st.devices ∧
    (check_and_clear_rate_limit st now).1.device_profiles = st.device_profiles ∧
    (check_and_clear_rate_limit st now).1.data = st.data ∧
    (check_and_clear_rate_limit st now).1.auth_failures = st.auth_failures := by
  rcases st with ⟨z, d, p, da, rl, ru, af⟩
  cases rl <;> cases ru <;>
    simp [check_and_clear_rate_limit, clear_rate_limit] <;>
    first
      | rfl
      | (split <;> simp)

/-- The except-clauses of the poll cycle never touch the cache fields. -/
lemma poll_handle_error_cache (st : CoordState) (e : FetchErr) (now : ℚ) :
    (poll_handle_error st e now).1.zones = st.zones ∧
    (poll_handle_error st e now).1.devices = st.devices ∧
    (poll_handle_error st e now).1.device_profiles = st.device_profiles ∧
    (poll_handle_error st e now).1.data = st.data := by
  cases e <;> simp [poll_handle_error, set_rate_limit] <;>
    first
      | rfl
      | (split <;> simp)

/-- While the window is still open, the check returns the state unchanged
and reports limited. -/
lemma check_still_limited (st : CoordState) (now : ℚ)
    (h : is_rate_limited st now = true) :
    check_and_clear_rate_limit st now = (st, true) := by
  rcases st with ⟨z, d, p, da, rl, ru, af⟩
  cases rl <;> cases ru <;>
    simp_all [is_rate_limited, check_and_clear_rate_limit]

/-- The fetch body always issues the zones fetch first. -/
lemma poll_body_trace_head (st0 : CoordState) (env : PollEnv) :
    (poll_body st0 env).trace.head? = some .zonesFetch := by
  unfold poll_body
  cases env.zonesResult with
  | error e => simp
  | ok zones =>
      rcases hdev : devLoop env.detailResult env.profileResult zones [] [] []
        with ⟨res, tr⟩
      cases res with
      | error e => simp [hdev]
      | ok v => rcases v with ⟨devs, profs⟩; simp [hdev]

/-- When the fetch body fails, its final state is exactly what the matching
except-clause produced from the entry state. -/
lemma poll_body_error_state (st0 : CoordState) (env : PollEnv) (k : FailKind)
    (h : (poll_body st0 env).outcome = .error k) :
    ∃ e, (poll_body st0 env).state = (poll_handle_error st0 e env.now).1 := by
  unfold poll_body at h ⊢
  split at h
  · rename_i e heq
    exact ⟨e, rfl⟩
  · rename_i zones heq
    split at h
    · rename_i e tr heq2
      exact ⟨e, rfl⟩
    · simp at h

/-! ### Claim C2 — failed cycles leave the published cache untouched -/

/-- Claim C2: whenever a poll cycle fails (raises UpdateFailed) at any
point — zones fetch, any device-detail fetch or any device-profile fetch —
the previously published cache (zones, devices, device_profiles, and the
coordinator's data dict) is left completely unmodified; the new result set
is staged in local accumulators and swapped in only on full success. -/
theorem C2_no_partial_update (st : CoordState) (env : PollEnv) (k : FailKind)
    (h : (async_update_data st env).outcome = .error k) :
    (async_update_data st env).state.zones = st.zones ∧
    (async_update_data st env).state.devices = st.devices ∧
    (async_update_data st env).state.device_profiles = st.device_profiles ∧
    (async_update_data st env).state.data = st.data := by
  obtain ⟨hz, hd, hp, hda, -⟩ := check_preserves_cache st env.now
  simp only [async_update_data] at h ⊢
  by_cases hb : (check_and_clear_rate_limit st env.now).2
  · simp only [hb, if_true] at h ⊢
    cases hdata : (check_and_clear_rate_limit st env.now).1.data with
    | some d => rw [hdata] at h; simp at h
    | none => rw [hdata] at h ⊢; exact ⟨hz, hd, hp, hdata ▸ hda⟩
  · simp only [hb, if_false, Bool.false_eq_true] at h ⊢
    obtain ⟨e, hstate⟩ :=
      poll_body_error_state (check_and_clear_rate_limit st env.now).1 env k h
    rw [hstate]
    obtain ⟨h1, h2, h3, h4⟩ :=
      poll_handle_error_cache (check_and_clear_rate_limit st env.now).1 e env.now
    exact ⟨h1.trans hz, h2.trans hd, h3.trans hp, h4.trans hda⟩

/-- A sample adapter, detail payload, zone list and coordinator state used by
the concrete witnesses below. -/
def sampleAdapter (s : String) : Adapter :=
  ⟨s, none, none, none, none, none, none, none, none⟩

def sampleDetail : DeviceDetail := ⟨none, none, none, none, none, none, none, none⟩

def samplePrevState : CoordState :=
  ⟨[⟨1, some (sampleAdapter "A")⟩], [("A", sampleDetail)], [("A", 7)],
    some ⟨[⟨1, some (sampleAdapter "A")⟩], [("A", sampleDetail)], [("A", 7)]⟩,
    false, none, 0⟩

/-- Poll environment whose zones fetch yields serials A and B but whose
detail fetch for B fails with a connection error. -/
def sampleFailEnv : PollEnv :=
  ⟨0, .ok [⟨1, some (sampleAdapter "A")⟩, ⟨2, some (sampleAdapter "B")⟩],
    fun s => if s = "B" then .error .connErr else .ok sampleDetail,
    fun _ => .ok 7⟩

/-- Witness for C2: a cycle whose zones fetch succeeds (two zones, serials A
and B) but whose detail fetch for the second serial fails, leaves the
previously published one-device cache untouched. -/
theorem C2_witness :
    (async_update_data samplePrevState sampleFailEnv).state.devices
      = samplePrevState.devices :=
  (C2_no_partial_update samplePrevState sampleFailEnv .connFailed rfl).2.1

/-! ### Claim C5 — the rate-limit window gates the poll cycle -/

/-- Claim C5: a poll cycle entered while the RateLimitWindow is active and
its `until` timestamp has not yet passed issues no fetch, leaves the state
unchanged, and returns the last good cache — or fails with the remaining
wait time when no cache exists yet; once now >= until, the window is cleared
lazily on that check (the cycle behaves exactly as if entered with a cleared
window) and the fetch body runs, starting with the zones fetch. -/
theorem C5_rate_limit_window (st : CoordState) (env : PollEnv) (u : ℚ)
    (hrl : st.rate_limited = true) (hu : st.rate_limit_until = some u) :
    (env.now < u →
      (async_update_data st env).trace = [] ∧
      (async_update_data st env).state = st ∧
      (∀ d, st.data = some d → (async_update_data st env).outcome = .ok d) ∧
      (st.data = none →
        (async_update_data st env).outcome =
          .error (.rateLimitedWait (rate_limit_remaining_seconds st env.now)))) ∧
    (u ≤ env.now →
      async_update_data st env = async_update_data (clear_rate_limit st) env ∧
      (async_update_data st env).trace.head? = some .zonesFetch) := by
  constructor
  · intro hnow
    have hlim : is_rate_limited st env.now = true := by
      simp [is_rate_limited, hrl, hu, hnow]
    have hc : check_and_clear_rate_limit st env.now = (st, true) :=
      check_still_limited st env.now hlim
    simp only [async_update_data, hc]
    cases hdata : st.data with
    | some d =>
        refine ⟨by simp, by simp, ?_, ?_⟩
        · intro d' hd'
          injection hd' with hdd
          simp [hdd]
        · intro hn
          exact Option.noConfusion hn
    | none =>
        refine ⟨by simp, by simp, ?_, fun _ => by simp⟩
        intro d' hd'
        exact Option.noConfusion hd'
  · intro hnow
    have hc : check_and_clear_rate_limit st env.now = (clear_rate_limit st, false) := by
      simp [check_and_clear_rate_limit, hrl, hu, hnow]
    have hc2 : check_and_clear_rate_limit (clear_rate_limit st) env.now
        = (clear_rate_limit st, false) := by
      simp [check_and_clear_rate_limit, clear_rate_limit]
    have heq : async_update_data st env = async_update_data (clear_rate_limit st) env := by
      simp only [async_update_data, hc, hc2]
    refine ⟨heq, ?_⟩
    rw [heq]
    simp only [async_update_data, hc2]
    exact poll_body_trace_head (clear_rate_limit st) env

/-- A previously filled coordinator state sitting inside an open rate-limit
window (until t = 100). -/
def sampleLimitedState : CoordState :=
  { samplePrevState with rate_limited := true, rate_limit_until := some 100 }

/-- Witness for C5: at now = 0 inside the window, the cycle returns the
cached triple unchanged. -/
theorem C5_witness :
    (async_update_data sampleLimitedState sampleFailEnv).outcome
      = .ok ⟨[⟨1, some (sampleAdapter "A")⟩], [("A", sampleDetail)], [("A", 7)]⟩ :=
  ((C5_rate_limit_window sampleLimitedState sampleFailEnv 100 rfl rfl).1
    (by norm_num [sampleFailEnv])).2.2.1 _ rfl


/-! ### Claim C7 — one detail and one profile fetch per unique serial -/

/-- On a successful run, the device loop's fetch trace is exactly one detail
fetch followed by one profile fetch for each first-occurrence serial, in
zone-list order. -/
lemma devLoop_trace (detail : String → Except FetchErr DeviceDetail)
    (profile : String → Except FetchErr ProfilePayload) :
    ∀ (zones : List Zone) (seen : List String)
      (devs : List (String × DeviceDetail)) (profs : List (String × ProfilePayload)),
      (∃ v, (devLoop detail profile zones seen devs profs).1 = .ok v) →
      (devLoop detail profile zones seen devs profs).2
        = (uniqueSerials zones seen).flatMap
            fun s => [FetchEvent.detailFetch s, FetchEvent.profileFetch s]
  | [], seen, devs, profs, _ => by simp [devLoop, uniqueSerials]
  | z :: rest, seen, devs, profs, hok => by
      rcases hok with ⟨v, hv⟩
      cases hz : z.adapter with
      | none =>
          simp only [devLoop, hz] at hv ⊢
          rw [devLoop_trace detail profile rest seen devs profs ⟨v, hv⟩]
          simp [uniqueSerials, hz]
      | some a =>
          by_cases hmem : a.deviceSerial ∈ seen
          · simp only [devLoop, hz, hmem, if_true] at hv ⊢
            rw [devLoop_trace detail profile rest seen devs profs ⟨v, hv⟩]
            simp [uniqueSerials, hz, hmem]
          · cases hd : detail a.deviceSerial with
            | error e =>
                simp only [devLoop, hz, hmem, if_false, hd] at hv
                exact absurd hv (by simp)
            | ok d =>
                cases hp : profile a.deviceSerial with
                | error e =>
                    simp only [devLoop, hz, hmem, if_false, hd, hp] at hv
                    exact absurd hv (by simp)
                | ok p =>
                    simp only [devLoop, hz, hmem, if_false, hd, hp] at hv ⊢
                    rw [devLoop_trace detail profile rest (seen ++ [a.deviceSerial])
                      (devs ++ [(a.deviceSerial, d)]) (profs ++ [(a.deviceSerial, p)])
                      ⟨v, hv⟩]
                    simp [uniqueSerials, hz, hmem]

/-- The first-occurrence serial list contains a serial exactly once when it
is referenced by some zone and not pre-seen, and never otherwise. -/
lemma count_uniqueSerials (s : String) :
    ∀ (zones : List Zone) (seen : List String),
      (uniqueSerials zones seen).count s
        = if s ∈ refSerials zones ∧ s ∉ seen then 1 else 0
  | [], seen => by simp [uniqueSerials, refSerials]
  | z :: rest, seen => by
      cases hz : z.adapter with
      | none =>
          simp only [uniqueSerials, hz]
          rw [count_uniqueSerials s rest seen]
          simp [refSerials, hz]
      | some a =>
          simp only [uniqueSerials, hz]
          by_cases hmem : a.deviceSerial ∈ seen
          · simp only [hmem, if_true]
            rw [count_uniqueSerials s rest seen]
            by_cases hsa : s = a.deviceSerial
            · rw [← hsa] at hmem
              simp [hmem]
            · simp [refSerials, hz, hsa]
          · simp only [hmem, if_false]
            by_cases hsa : s = a.deviceSerial
            · rw [← hsa] at hmem
              rw [← hsa]
              rw [List.count_cons_self, count_uniqueSerials s rest (seen ++ [s])]
              simp [refSerials, hz, hmem, ← hsa]
            · rw [List.count_cons_of_ne hsa,
                count_uniqueSerials s rest (seen ++ [a.deviceSerial])]
              simp [refSerials, hz, hsa]

/-- Counting detail/profile events in the per-serial trace reduces to
counting the serial itself. -/
lemma count_flatMap_events (l : List String) (s : String) :
    ((l.flatMap fun t => [FetchEvent.detailFetch t, FetchEvent.profileFetch t]).count
        (FetchEvent.detailFetch s) = l.count s) ∧
    ((l.flatMap fun t => [FetchEvent.detailFetch t, FetchEvent.profileFetch t]).count
        (FetchEvent.profileFetch s) = l.count s) := by
  induction l with
  | nil => simp
  | cons t rest ih =>
      rw [List.flatMap_cons]
      constructor
      · rw [List.count_append, ih.1]
        by_cases hts : t = s
        · subst hts
          simp [List.count_cons, Nat.add_comm]
        · simp [List.count_cons, hts]
      · rw [List.count_append, ih.2]
        by_cases hts : t = s
        · subst hts
          simp [List.count_cons, Nat.add_comm]
        · simp [List.count_cons, hts]

/-- When the zones fetch succeeds and the device loop succeeds, the cycle's
trace is the zones fetch followed by the loop's trace. -/
lemma poll_body_ok_trace (st0 : CoordState) (env : PollEnv) (zones : List Zone)
    (hz : env.zonesResult = .ok zones)
    (hok : ∃ v, (devLoop env.detailResult env.profileResult zones [] [] []).1 = .ok v) :
    (poll_body st0 env).trace
      = .zonesFetch :: (devLoop env.detailResult env.profileResult zones [] [] []).2 := by
  unfold poll_body
  split
  · rename_i e heq
    rw [hz] at heq
    exact Except.noConfusion heq
  · rename_i zones2 heq
    rw [hz] at heq
    injection heq with hzz
    subst hzz
    split
    · rename_i e tr heq2
      rcases hok with ⟨v, hv⟩
      rw [heq2] at hv
      simp at hv
    · rename_i devs profs tr heq2
      rw [heq2]

/-- Claim C7: in every successful poll cycle, the fetch trace is the zones
fetch followed by exactly one detail fetch and one profile fetch (in that
order) per unique referenced serial, in zone-list order; in particular
every serial referenced by the zones — even by several zones — is fetched
exactly once for detail and once for profile, and unreferenced serials are
never fetched. -/
theorem C7_unique_sequential_fetches (st : CoordState) (env : PollEnv)
    (zones : List Zone)
    (hnl : (check_and_clear_rate_limit st env.now).2 = false)
    (hz : env.zonesResult = .ok zones)
    (hok : ∃ v, (devLoop env.detailResult env.profileResult zones [] [] []).1 = .ok v) :
    (async_update_data st env).trace
      = .zonesFetch :: ((uniqueSerials zones []).flatMap
          fun s => [FetchEvent.detailFetch s, FetchEvent.profileFetch s]) ∧
    (∀ s, s ∈ refSerials zones →
      (async_update_data st env).trace.count (.detailFetch s) = 1 ∧
      (async_update_data st env).trace.count (.profileFetch s) = 1) ∧
    (∀ s, s ∉ refSerials zones →
      (async_update_data st env).trace.count (.detailFetch s) = 0 ∧
      (async_update_data st env).trace.count (.profileFetch s) = 0) := by
  have hup : async_update_data st env
      = poll_body (check_and_clear_rate_limit st env.now).1 env := by
    simp only [async_update_data, hnl, Bool.false_eq_true, if_false]
  have htr : (async_update_data st env).trace
      = .zonesFetch :: ((uniqueSerials zones []).flatMap
          fun s => [FetchEvent.detailFetch s, FetchEvent.profileFetch s]) := by
    rw [hup, poll_body_ok_trace (check_and_clear_rate_limit st env.now).1 env zones hz hok,
      devLoop_trace env.detailResult env.profileResult zones [] [] [] hok]
  refine ⟨htr, ?_, ?_⟩
  · intro s hs
    rw [htr]
    rw [List.count_cons_of_ne (by simp), List.count_cons_of_ne (by simp),
      (count_flatMap_events (uniqueSerials zones []) s).1,
      (count_flatMap_events (uniqueSerials zones []) s).2,
      count_uniqueSerials s zones []]
    simp [hs]
  · intro s hs
    rw [htr]
    rw [List.count_cons_of_ne (by simp), List.count_cons_of_ne (by simp),
      (count_flatMap_events (uniqueSerials zones []) s).1,
      (count_flatMap_events (uniqueSerials zones []) s).2,
      count_uniqueSerials s zones []]
    simp [hs]

/-- Poll environment with three zones, two of which share serial A, and all
fetches succeeding. -/
def sampleOkEnv : PollEnv :=
  ⟨0, .ok [⟨1, some (sampleAdapter "A")⟩, ⟨2, some (sampleAdapter "A")⟩,
           ⟨3, some (sampleAdapter "B")⟩],
    fun _ => .ok sampleDetail, fun _ => .ok 7⟩

/-- Witness for C7: serial A is referenced by two zones yet fetched exactly
once for detail. -/
theorem C7_witness :
    (async_update_data samplePrevState sampleOkEnv).trace.count
      (FetchEvent.detailFetch "A") = 1 :=
  ((C7_unique_sequential_fetches samplePrevState sampleOkEnv
      [⟨1, some (sampleAdapter "A")⟩, ⟨2, some (sampleAdapter "A")⟩,
       ⟨3, some (sampleAdapter "B")⟩] rfl rfl
      ⟨([("A", sampleDetail), ("B", sampleDetail)], [("A", 7), ("B", 7)]), rfl⟩).2.1
    "A" (by decide)).1

/-! ### Claim C9 — targeted refresh -/

/-- The targeted refresh never touches the auth-failure counter. -/
lemma refresh_preserves_auth (st : CoordState) (s : String)
    (dr : Except FetchErr DeviceDetail) (now : ℚ) :
    (async_refresh_device st s dr now).1.auth_failures = st.auth_failures := by
  unfold async_refresh_device
  split
  · rfl
  · split <;> simp [set_rate_limit]

/-- Claim C9: `async_refresh_device(serial)` is a no-op (no fetch, no state
change) whenever the rate-limit window is active; otherwise it fetches the
device detail only, replaces that serial's cache entry, patches the first
matching zone's adapter sub-record and republishes the data dict; a
rate-limit error during the fetch only opens the window, and no error of any
kind propagates to the caller (the function totally returns a state); the
profile cache is never touched. -/
theorem C9_refresh_device (st : CoordState) (serial : String)
    (dr : Except FetchErr DeviceDetail) (now : ℚ) :
    (is_rate_limited st now = true →
      async_refresh_device st serial dr now = (st, false)) ∧
    (is_rate_limited st now = false →
      (∀ d, dr = .ok d →
        async_refresh_device st serial dr now =
          ({ st with devices := setEntry st.devices serial d,
                     zones := patchZones st.zones serial d,
                     data := some ⟨patchZones st.zones serial d,
                                   setEntry st.devices serial d,
                                   st.device_profiles⟩ }, true)) ∧
      (∀ ra, dr = .error (.rateLimit ra) →
        async_refresh_device st serial dr now =
          (set_rate_limit st (ra.getD 60) now, true)) ∧
      (dr = .error .authErr ∨ dr = .error .connErr ∨ dr = .error .otherErr →
        async_refresh_device st serial dr now = (st, true))) ∧
    (async_refresh_device st serial dr now).1.device_profiles
      = st.device_profiles := by
  have hprof : (async_refresh_device st serial dr now).1.device_profiles
      = st.device_profiles := by
    unfold async_refresh_device
    split
    · rfl
    · split <;> simp [set_rate_limit]
  refine ⟨?_, ?_, hprof⟩
  · intro h
    simp [async_refresh_device, h]
  · intro h
    refine ⟨?_, ?_, ?_⟩
    · intro d hd
      subst hd
      simp [async_refresh_device, h]
    · intro ra hra
      subst hra
      simp [async_refresh_device, h]
    · intro hcase
      rcases hcase with h1 | h1 | h1 <;> subst h1 <;> simp [async_refresh_device, h]

/-- Witness for C9: inside an open window the refresh is a no-op even though
the fetch would have succeeded. -/
theorem C9_witness :
    async_refresh_device sampleLimitedState "A" (.ok sampleDetail) 0
      = (sampleLimitedState, false) :=
  (C9_refresh_device sampleLimitedState "A" (.ok sampleDetail) 0).1 rfl

/-! ### Claim C8 — three consecutive auth failures trigger re-auth -/

/-- Classification of the fetch body's outcome: an auth failure bumps the
counter by one and signals re-authentication exactly at the threshold; a
full success resets the counter and never signals. -/
lemma poll_body_auth (st0 : CoordState) (env : PollEnv) :
    (classifyPoll (poll_body st0 env) = .authFailed →
      (poll_body st0 env).state.auth_failures = st0.auth_failures + 1 ∧
      ((poll_body st0 env).reauth = true ↔
        MAX_AUTH_FAILURES ≤ st0.auth_failures + 1)) ∧
    (classifyPoll (poll_body st0 env) = .fullSuccess →
      (poll_body st0 env).state.auth_failures = 0 ∧
      (poll_body st0 env).reauth = false) := by
  unfold poll_body
  split
  · rename_i e heq
    cases e with
    | rateLimit ra => simp [poll_handle_error, classifyPoll]
    | authErr =>
        by_cases hM : MAX_AUTH_FAILURES ≤ st0.auth_failures + 1 <;>
          simp [poll_handle_error, classifyPoll, hM]
    | connErr => simp [poll_handle_error, classifyPoll]
    | otherErr => simp [poll_handle_error, classifyPoll]
  · rename_i zones heq
    split
    · rename_i e tr heq2
      cases e with
      | rateLimit ra => simp [poll_handle_error, classifyPoll]
      | authErr =>
          by_cases hM : MAX_AUTH_FAILURES ≤ st0.auth_failures + 1 <;>
            simp [poll_handle_error, classifyPoll, hM]
      | connErr => simp [poll_handle_error, classifyPoll]
      | otherErr => simp [poll_handle_error, classifyPoll]
    · rename_i devs profs tr heq2
      simp [classifyPoll]

/-- Per-operation auth policy: an auth-failed outcome bumps the counter and
signals exactly at the threshold; a full success resets the counter and
never signals. -/
lemma applyOp_auth (st : CoordState) (e : OpEvent) :
    ((applyOp st e).outcome = .authFailed →
      (applyOp st e).state.auth_failures = st.auth_failures + 1 ∧
      ((applyOp st e).reauth = true ↔ MAX_AUTH_FAILURES ≤ st.auth_failures + 1)) ∧
    ((applyOp st e).outcome = .fullSuccess →
      (applyOp st e).state.auth_failures = 0 ∧ (applyOp st e).reauth = false) := by
  cases e with
  | poll env =>
      have hpres := (check_preserves_cache st env.now).2.2.2.2
      simp only [applyOp, async_update_data]
      by_cases hb : (check_and_clear_rate_limit st env.now).2
      · simp only [hb, if_true]
        cases hdata : (check_and_clear_rate_limit st env.now).1.data with
        | some d => simp [classifyPoll]
        | none => simp [classifyPoll]
      · simp only [hb, if_false, Bool.false_eq_true]
        have hlem := poll_body_auth (check_and_clear_rate_limit st env.now).1 env
        rw [hpres] at hlem
        exact hlem
  | command env =>
      simp only [applyOp, send_command_step]
      split
      · rename_i u heq
        constructor
        · intro hcon
          exact absurd hcon (by simp)
        · intro hcon
          exact ⟨by rw [refresh_preserves_auth], rfl⟩
      · rename_i ra heq
        constructor <;> (intro hcon; exact absurd hcon (by simp))
      · rename_i heq
        by_cases hM : MAX_AUTH_FAILURES ≤ st.auth_failures + 1 <;> simp [hM]
      · rename_i heq
        constructor <;> (intro hcon; exact absurd hcon (by simp))
      · rename_i heq
        constructor <;> (intro hcon; exact absurd hcon (by simp))

/-- Claim C8: over any sequence of poll-cycle and command outcomes, starting
from a zero counter, exactly three consecutive auth-failure outcomes signal
re-authentication exactly once, at the third failure (counts 1 and 2 do not
signal, count 3 does, and the counter then reads 3); any full success (poll
or command) resets the counter to 0 with no signal; and in general an auth
failure bumps the counter by one and signals exactly when the new count
reaches the threshold of 3. -/
theorem C8_reauth_after_three (st : CoordState) (e1 e2 e3 : OpEvent)
    (h0 : st.auth_failures = 0)
    (h1 : (applyOp st e1).outcome = .authFailed)
    (h2 : (applyOp (applyOp st e1).state e2).outcome = .authFailed)
    (h3 : (applyOp (applyOp (applyOp st e1).state e2).state e3).outcome
      = .authFailed) :
    ((applyOp st e1).reauth = false ∧
     (applyOp (applyOp st e1).state e2).reauth = false ∧
     (applyOp (applyOp (applyOp st e1).state e2).state e3).reauth = true ∧
     (applyOp (applyOp (applyOp st e1).state e2).state e3).state.auth_failures = 3) ∧
    (∀ st2 e, (applyOp st2 e).outcome = .fullSuccess →
      (applyOp st2 e).state.auth_failures = 0 ∧ (applyOp st2 e).reauth = false) ∧
    (∀ st2 e, (applyOp st2 e).outcome = .authFailed →
      (applyOp st2 e).state.auth_failures = st2.auth_failures + 1 ∧
      ((applyOp st2 e).reauth = true ↔ MAX_AUTH_FAILURES ≤ st2.auth_failures + 1)) := by
  obtain ⟨ha1, hr1⟩ := (applyOp_auth st e1).1 h1
  obtain ⟨ha2, hr2⟩ := (applyOp_auth (applyOp st e1).state e2).1 h2
  obtain ⟨ha3, hr3⟩ := (applyOp_auth (applyOp (applyOp st e1).state e2).state e3).1 h3
  have hc1 : (applyOp st e1).state.auth_failures = 1 := by rw [ha1, h0]
  have hc2 : (applyOp (applyOp st e1).state e2).state.auth_failures = 2 := by
    rw [ha2, hc1]
  have hc3 : (applyOp (applyOp (applyOp st e1).state e2).state e3).state.auth_failures
      = 3 := by rw [ha3, hc2]
  refine ⟨⟨?_, ?_, ?_, hc3⟩,
    fun st2 e => (applyOp_auth st2 e).2, fun st2 e => (applyOp_auth st2 e).1⟩
  · cases hbe : (applyOp st e1).reauth
    · rfl
    · exfalso
      have := hr1.mp hbe
      rw [h0] at this
      norm_num [MAX_AUTH_FAILURES] at this
  · cases hbe : (applyOp (applyOp st e1).state e2).reauth
    · rfl
    · exfalso
      have := hr2.mp hbe
      rw [hc1] at this
      norm_num [MAX_AUTH_FAILURES] at this
  · exact hr3.mpr (by rw [hc2]; norm_num [MAX_AUTH_FAILURES])

/-- Poll environment whose zones fetch fails with an authentication error. -/
def sampleAuthFailEnv : PollEnv :=
  ⟨0, .error .authErr, fun _ => .error .authErr, fun _ => .error .authErr⟩

/-- Witness for C8: three consecutive auth-failing poll cycles from a fresh
state trigger the re-authentication signal on the third. -/
theorem C8_witness :
    (applyOp (applyOp (applyOp samplePrevState (.poll sampleAuthFailEnv)).state
        (.poll sampleAuthFailEnv)).state (.poll sampleAuthFailEnv)).reauth = true :=
  ((C8_reauth_after_three samplePrevState (.poll sampleAuthFailEnv)
      (.poll sampleAuthFailEnv) (.poll sampleAuthFailEnv)
      rfl rfl rfl rfl).1).2.2.1

end KumoCloud
